import Mathlib

/-!
Verification development for the `rmac` repository
(`algorithms/attention_sac.py`, class `RelationalSAC`).

The numeric parts of the update engine are embedded over ℚ.  Autodiff
scalars are modelled as dual numbers `Dual` carrying a value `v` and a
derivative component `d` along one (arbitrary) parameter direction;
`Dual.detach` zeroes the derivative, mirroring `Tensor.detach()`.
The imperative parts (backward passes, the gradient gate, optimizer
steps, device/mode management, checkpointing) are embedded as explicit
state-transformers; the external collaborators (the network forward
passes, torch's autodiff, Adam, `clip_grad_norm_`) enter as oracle
function parameters.
-/

namespace RMAC

/-- An autodiff scalar: value and derivative along one parameter direction. -/
structure Dual where
  v : ℚ
  d : ℚ
deriving DecidableEq, Repr

instance : Zero Dual := ⟨⟨0, 0⟩⟩
instance : Add Dual := ⟨fun a b => ⟨a.v + b.v, a.d + b.d⟩⟩
instance : Neg Dual := ⟨fun a => ⟨-a.v, -a.d⟩⟩
instance : Sub Dual := ⟨fun a b => ⟨a.v - b.v, a.d - b.d⟩⟩
instance : Mul Dual := ⟨fun a b => ⟨a.v * b.v, a.d * b.v + a.v * b.d⟩⟩

instance : AddCommMonoid Dual where
  add_assoc a b c := congrArg₂ Dual.mk (add_assoc _ _ _) (add_assoc _ _ _)
  zero_add a := congrArg₂ Dual.mk (zero_add _) (zero_add _)
  add_zero a := congrArg₂ Dual.mk (add_zero _) (add_zero _)
  add_comm a b := congrArg₂ Dual.mk (add_comm _ _) (add_comm _ _)
  nsmul := nsmulRec

/-- Embed a constant (no gradient) scalar. -/
def Dual.ofQ (c : ℚ) : Dual := ⟨c, 0⟩

/-- Embeds `Tensor.detach()`: keep the value, cut the gradient. -/
def Dual.detach (a : Dual) : Dual := ⟨a.v, 0⟩

/-- Division by a constant scalar (the only division the engine performs). -/
def Dual.divC (a : Dual) (c : ℚ) : Dual := ⟨a.v / c, a.d / c⟩

/-- Mean of a list of rationals (empty list gives `0/0 = 0`). -/
def qmean (l : List ℚ) : ℚ := l.sum / l.length

/-- Embeds `Tensor.mean()` over a batch of dual scalars. -/
def dmean (l : List Dual) : Dual := l.sum.divC l.length

/-- Embeds `torch.nn.MSELoss()` with its default mean reduction, applied to a
batch of predictions and targets. -/
def MSELossD (pred target : List Dual) : Dual :=
  dmean ((pred.zip target).map fun pt => (pt.1 - pt.2) * (pt.1 - pt.2))

/-- The per-transition critic regression target of `update_critic`
(attention_sac.py lines 123-127):
`target_q = rews[a_i] + gamma * nq * (1 - dones[a_i])`,
then `if soft: target_q -= log_pi / reward_scale`.
Rewards and done flags are data (constants); `nq` (target-critic output)
and `log_pi` (target-policy log-probability) are live autodiff scalars. -/
def target_q (soft : Bool) (gamma reward_scale rew done : ℚ) (nq log_pi : Dual) : Dual :=
  let t := Dual.ofQ rew + Dual.ofQ gamma * nq * (Dual.ofQ 1 - Dual.ofQ done)
  if soft then t - log_pi.divC reward_scale else t

/-- One agent's batch of regression targets. -/
def target_list (soft : Bool) (gamma reward_scale : ℚ) (rews dones : List ℚ)
    (nqs logPis : List Dual) : List Dual :=
  List.zipWith (fun (rd : ℚ × ℚ) (nl : Dual × Dual) =>
      target_q soft gamma reward_scale rd.1 rd.2 nl.1 nl.2)
    (rews.zip dones) (nqs.zip logPis)

/-- The summed critic loss of `update_critic` (lines 120-128): looping over
`zip(range(self.n_agents), next_qs, next_log_pis, critic_rets)` and
accumulating `q_loss += MSELoss(pq, target_q.detach())`.  Outer lists are
indexed by agent, inner lists by batch element. -/
def q_loss (soft : Bool) (gamma reward_scale : ℚ) (n_agents : ℕ)
    (rews dones : List (List ℚ)) (nqs logPis pqs : List (List Dual)) : Dual :=
  let m := min n_agents (min (min nqs.length logPis.length) pqs.length)
  (List.range m).foldl
    (fun acc i => acc + MSELossD (pqs.getD i [])
      ((target_list soft gamma reward_scale (rews.getD i []) (dones.getD i [])
          (nqs.getD i []) (logPis.getD i [])).map Dual.detach))
    0

/-- The per-agent counterfactual baseline of `update_policies` (line 177):
`v = (all_q * probs).sum(dim=1, keepdim=True)`.  Outer lists are batch
rows; inner lists range over the agent's discrete actions. -/
def v_of (all_q probs : List (List Dual)) : List Dual :=
  List.zipWith (fun aq pr => (List.zipWith (fun a b => a * b) aq pr).sum) all_q probs

/-- The advantage of `update_policies` (line 178): `pol_target = q - v`,
with `q` the critic value of the actually sampled joint action. -/
def pol_target_of (q : List Dual) (all_q probs : List (List Dual)) : List Dual :=
  List.zipWith (fun qi vi => qi - vi) q (v_of all_q probs)

/-- The per-agent policy loss of `update_policies` (lines 179-184):
`(log_pi * (log_pi / reward_scale - pol_target).detach()).mean()` if `soft`,
`(log_pi * (-pol_target).detach()).mean()` otherwise, then
`pol_loss += 1e-3 * reg` for every regularization term. -/
def pol_loss (soft : Bool) (reward_scale : ℚ) (log_pi pol_target pol_regs : List Dual) : Dual :=
  let base :=
    if soft then
      dmean ((log_pi.zip pol_target).map fun lt => lt.1 * (lt.1.divC reward_scale - lt.2).detach)
    else
      dmean ((log_pi.zip pol_target).map fun lt => lt.1 * (-lt.2).detach)
  pol_regs.foldl (fun acc reg => acc + Dual.ofQ 1e-3 * reg) base

/-- A network parameter: its value, accumulated gradient buffer (`.grad`),
`requires_grad` flag, and whether it belongs to the critic's modules
shared across agents. -/
structure Param where
  v : ℚ
  g : ℚ
  rg : Bool
  shared : Bool
deriving DecidableEq, Repr

abbrev Params := List Param

/-- State of the trainable networks touched by the two update methods. -/
structure GradState where
  nAgents : ℕ
  criticPs : Params
  polPs : List Params
deriving DecidableEq, Repr

/-- Events recording the gradient / optimizer operations the update
methods perform, in program order. -/
inductive Ev where
  | disableCritic : Ev
  | backwardPol : ℕ → Ev
  | enableCritic : Ev
  | clipPol : ℕ → ℚ → Ev
  | stepPol : ℕ → Ev
  | zeroPol : ℕ → Ev
  | backwardCritic : Ev
  | scaleShared : Ev
  | clipCritic : ℚ → Ev
  | stepCritic : Ev
  | zeroCritic : Ev
deriving DecidableEq, Repr

/-- External collaborators: torch autodiff, `clip_grad_norm_`, and the Adam
optimizers, supplied as opaque-to-the-engine functions. -/
structure TorchOracle where
  polLossGrad : ℕ → ℕ → ℚ
  polCriticGrad : ℕ → ℕ → ℚ
  criticLossGrad : ℕ → ℚ
  clipF : ℚ → List ℚ → List ℚ
  polStep : ℕ → Params → Params
  criticStep : Params → Params

/-- Modelled from the spec: `utils.misc.disable_gradients` (not under
`src/`) clears the requires-gradient flag on every parameter of a network
without altering parameter values (spec section 4.2). -/
def disable_gradients (ps : Params) : Params := ps.map fun p => {p with rg := false}

/-- Modelled from the spec: `utils.misc.enable_gradients` (not under
`src/`) sets the requires-gradient flag on every parameter of a network
without altering parameter values (spec section 4.2). -/
def enable_gradients (ps : Params) : Params := ps.map fun p => {p with rg := true}

/-- Embeds `loss.backward()` restricted to one network: the would-be gradient
`gf k` of the loss in parameter `k` is accumulated into `.grad` exactly
for parameters whose `requires_grad` flag is set. -/
def accumGrads (gf : ℕ → ℚ) : Params → Params
  | [] => []
  | p :: ps => (if p.rg then {p with g := p.g + gf 0} else p) :: accumGrads (fun k => gf (k + 1)) ps

/-- Embeds `optimizer.zero_grad()`. -/
def zero_grad (ps : Params) : Params := ps.map fun p => {p with g := 0}

/-- Embeds `torch.nn.utils.clip_grad_norm_(params, budget)`: rewrites the gradient
buffers through the external clipping function, leaving values untouched. -/
def clip_grad_norm (clipF : ℚ → List ℚ → List ℚ) (budget : ℚ) (ps : Params) : Params :=
  List.zipWith (fun p g2 => {p with g := g2}) ps (clipF budget (ps.map Param.g))

/-- Modelled from the spec: `RelationalCritic.scale_shared_grads`
(`utils/critics.py`, not under `src/`) rescales the gradients of the
parameters shared across all agents by `1/n_agents` (spec sections 4.3, 8, 9). -/
def scale_shared_grads (n_agents : ℕ) (ps : Params) : Params :=
  ps.map fun p => if p.shared then {p with g := p.g / n_agents} else p

/-- One iteration of the per-agent loop of `update_policies`
(attention_sac.py lines 173-193): gradient gate around the single
backward call, clip to `0.5`, step and zero that agent's policy
optimizer. -/
def polIter (orc : TorchOracle) (s : GradState) (i : ℕ) : GradState × List Ev :=
  let c1 := disable_gradients s.criticPs
  let pol1 := accumGrads (orc.polLossGrad i) (s.polPs.getD i [])
  let c2 := accumGrads (orc.polCriticGrad i) c1
  let c3 := enable_gradients c2
  let pol2 := clip_grad_norm orc.clipF (1 / 2) pol1
  let pol3 := orc.polStep i pol2
  let pol4 := zero_grad pol3
  ({s with criticPs := c3, polPs := s.polPs.set i pol4},
   [Ev.disableCritic, Ev.backwardPol i, Ev.enableCritic,
    Ev.clipPol i (1 / 2), Ev.stepPol i, Ev.zeroPol i])

/-- The event trace a full `update_policies` pass is expected to emit. -/
def polTrace (m : ℕ) : List Ev :=
  (List.range m).flatMap fun i =>
    [Ev.disableCritic, Ev.backwardPol i, Ev.enableCritic,
     Ev.clipPol i (1 / 2), Ev.stepPol i, Ev.zeroPol i]

/-- One step of the `update_policies` agent loop, threading state and trace. -/
def polLoopStep (orc : TorchOracle) (acc : GradState × List Ev) (i : ℕ) : GradState × List Ev :=
  let r := polIter orc acc.1 i
  (r.1, acc.2 ++ r.2)

/-- The gradient/optimizer effect of a completed `update_policies` pass
(lines 152-199): the per-agent loop, iterated over
`zip(range(self.n_agents), self.policies, obs)`. -/
def update_policies_run (orc : TorchOracle) (s : GradState) : GradState × List Ev :=
  (List.range (min s.nAgents s.polPs.length)).foldl (polLoopStep orc) (s, [])

/-- The `AttributeError` raised by calling `.add_scalar` on `None`. -/
def attrErr : String := "AttributeError: NoneType object has no attribute add_scalar"

/-- Embeds `update_policies(sample, soft, logger)`: the first per-agent loop calls
`logger.add_scalar('agent%i/policy_entropy' ...)` unconditionally (line
163), so with `logger=None` the method raises as soon as the loop body
runs once. -/
def update_policies (logger : Option Unit) (orc : TorchOracle) (s : GradState) :
    Except String (GradState × List Ev) :=
  if logger = none ∧ 0 < min s.nAgents s.polPs.length then Except.error attrErr
  else Except.ok (update_policies_run orc s)

/-- The gradient/optimizer effect of a completed `update_critic` pass
(lines 130-150): one backward pass on the summed loss, the per-parameter
grad/weight logging loop, `scale_shared_grads`, clipping to
`10 * n_agents`, one optimizer step, then `zero_grad`. -/
def update_critic_run (orc : TorchOracle) (s : GradState) : GradState × List Ev :=
  let c1 := accumGrads orc.criticLossGrad s.criticPs
  let c2 := scale_shared_grads s.nAgents c1
  let c3 := clip_grad_norm orc.clipF (10 * s.nAgents) c2
  let c4 := orc.criticStep c3
  let c5 := zero_grad c4
  ({s with criticPs := c5},
   [Ev.backwardCritic, Ev.scaleShared, Ev.clipCritic (10 * s.nAgents),
    Ev.stepCritic, Ev.zeroCritic])

/-- Embeds `update_critic(sample, soft, logger)`: the logging loop
`for n, p in self.critic.named_parameters(): logger.add_scalar(...)`
(lines 131-136) runs unconditionally, so with `logger=None` the method
raises as soon as the critic has at least one parameter. -/
def update_critic (logger : Option Unit) (orc : TorchOracle) (s : GradState) :
    Except String (GradState × List Ev) :=
  if logger = none ∧ s.criticPs ≠ [] then Except.error attrErr
  else Except.ok (update_critic_run orc s)

/-- Embeds `nn.Module` training/inference mode, toggled by `.train()` / `.eval()`. -/
inductive Mode where
  | train : Mode
  | eval : Mode
deriving DecidableEq, Repr

/-- Physical placement of a module, set by `.cuda()` / `.cpu()` / `.to(...)`. -/
inductive PhysDev where
  | cpu : PhysDev
  | cuda : PhysDev
deriving DecidableEq, Repr

/-- A network as the orchestrator sees it: its parameter vector
(`state_dict`), mode flag, and physical device. -/
structure Net where
  params : List ℚ
  mode : Mode
  phys : PhysDev
deriving DecidableEq, Repr

/-- One `AttentionAgent`: a live policy and its target policy. -/
structure AgentNets where
  policy : Net
  target_policy : Net
deriving DecidableEq, Repr

/-- The `RelationalSAC` instance state relevant to device/mode management
and checkpointing: the agents, the critic pair, the critic-optimizer
state, the construction parameters (`init_dict`, abstracted to a token),
and the four tracked device fields (strings, as in the source). -/
structure OrchState where
  agents : List AgentNets
  critic : Net
  target_critic : Net
  criticOptimState : List ℚ
  initDict : ℕ
  pol_dev : String
  critic_dev : String
  trgt_pol_dev : String
  trgt_critic_dev : String
deriving DecidableEq, Repr

/-- A device-transfer event, one per role that is actually moved. -/
inductive MoveEv where
  | pols : MoveEv
  | critic : MoveEv
  | trgtPols : MoveEv
  | trgtCritic : MoveEv
deriving DecidableEq, Repr

/-- Embeds `fn = lambda x: x.cuda()` when `device == 'gpu'`, else `lambda x: x.cpu()`. -/
def fnDev (device : String) : PhysDev :=
  if device = "gpu" then PhysDev.cuda else PhysDev.cpu

/-- Embeds `a.policy.train(); a.target_policy.train()` for one agent. -/
def trainAN (a : AgentNets) : AgentNets :=
  {a with policy := {a.policy with mode := Mode.train},
          target_policy := {a.target_policy with mode := Mode.train}}

/-- Embeds `a.policy.eval()` for one agent (rollouts only need the live policy). -/
def evalPol (a : AgentNets) : AgentNets :=
  {a with policy := {a.policy with mode := Mode.eval}}

/-- Embeds `a.policy = fn(a.policy)`. -/
def movePolTo (tgt : PhysDev) (a : AgentNets) : AgentNets :=
  {a with policy := {a.policy with phys := tgt}}

/-- Embeds `a.target_policy = fn(a.target_policy)`. -/
def moveTrgtPolTo (tgt : PhysDev) (a : AgentNets) : AgentNets :=
  {a with target_policy := {a.target_policy with phys := tgt}}

/-- The mode-setting prologue of `prep_training` (lines 212-216). -/
def train_modes (s : OrchState) : OrchState :=
  {s with agents := s.agents.map trainAN,
          critic := {s.critic with mode := Mode.train},
          target_critic := {s.target_critic with mode := Mode.train}}

/-- Embeds `if not self.pol_dev == device: move policies; self.pol_dev = device`
(lines 221-224, and 244-247 of `prep_rollouts`). -/
def pol_phase (device : String) (x : OrchState × List MoveEv) : OrchState × List MoveEv :=
  if x.1.pol_dev = device then x
  else ({x.1 with agents := x.1.agents.map (movePolTo (fnDev device)), pol_dev := device},
        x.2 ++ [MoveEv.pols])

/-- Embeds `if not self.critic_dev == device: ...` (lines 225-227). -/
def critic_phase (device : String) (x : OrchState × List MoveEv) : OrchState × List MoveEv :=
  if x.1.critic_dev = device then x
  else ({x.1 with critic := {x.1.critic with phys := fnDev device}, critic_dev := device},
        x.2 ++ [MoveEv.critic])

/-- Embeds `if not self.trgt_pol_dev == device: ...` (lines 228-231). -/
def trgt_pol_phase (device : String) (x : OrchState × List MoveEv) : OrchState × List MoveEv :=
  if x.1.trgt_pol_dev = device then x
  else ({x.1 with agents := x.1.agents.map (moveTrgtPolTo (fnDev device)),
                  trgt_pol_dev := device},
        x.2 ++ [MoveEv.trgtPols])

/-- Embeds `if not self.trgt_critic_dev == device: ...` (lines 232-234). -/
def trgt_critic_phase (device : String) (x : OrchState × List MoveEv) : OrchState × List MoveEv :=
  if x.1.trgt_critic_dev = device then x
  else ({x.1 with target_critic := {x.1.target_critic with phys := fnDev device},
                  trgt_critic_dev := device},
        x.2 ++ [MoveEv.trgtCritic])

/-- Embeds `prep_training(device)` (lines 211-234), with a trace of the device
transfers it actually performs. -/
def prep_training (device : String) (s : OrchState) : OrchState × List MoveEv :=
  trgt_critic_phase device (trgt_pol_phase device (critic_phase device
    (pol_phase device (train_modes s, []))))

/-- Embeds `prep_rollouts(device)` (lines 236-247): put the live policies in eval
mode and move only them. -/
def prep_rollouts (device : String) (s : OrchState) : OrchState × List MoveEv :=
  pol_phase device ({s with agents := s.agents.map evalPol}, [])

/-- The persisted checkpoint artifact written by `save` (lines 254-259). -/
structure SaveDict where
  initDict : ℕ
  agentParams : List (List ℚ × List ℚ)
  criticSD : List ℚ
  targetCriticSD : List ℚ
  criticOptimSD : List ℚ
  episode : Option ℤ
deriving DecidableEq, Repr

/-- Embeds `save(filename, episode)` (lines 249-260): first
`self.prep_training(device='cpu')`, then collect the save dictionary.
Modelled from the spec for the collaborator calls: `a.get_params()`
(`utils/agents.py`, not under `src/`) serializes each agent's policy and
target-policy parameters, and `state_dict()` snapshots critic /
target-critic / optimizer parameters exactly (spec sections 4.6, 6). -/
def save (episode : Option ℤ) (s : OrchState) : OrchState × SaveDict :=
  let s1 := (prep_training ("cpu") s).1
  (s1,
   { initDict := s1.initDict,
     agentParams := s1.agents.map fun a => (a.policy.params, a.target_policy.params),
     criticSD := s1.critic.params,
     targetCriticSD := s1.target_critic.params,
     criticOptimSD := s1.criticOptimState,
     episode := episode })

/-- Embeds `a.load_params(params)` for every agent.  Modelled from the spec:
`utils/agents.py` is not under `src/`; per spec sections 4.6 and 6 it
restores the serialized policy / target-policy parameters bit-identically. -/
def load_agent_params (agents : List AgentNets) (ps : List (List ℚ × List ℚ)) : List AgentNets :=
  List.zipWith (fun a p =>
      {a with policy := {a.policy with params := p.1},
              target_policy := {a.target_policy with params := p.2}})
    agents ps

/-- Embeds `init_from_save(filename, load_critic)` (lines 315-343).  `fresh`
stands for `cls(**save_dict['init_dict'])`, the construction of a new
instance from the saved construction parameters.  Note the source
hardcodes the returned episode as `29001 + 8200` (line 322) and leaves
`episode = save_dict['episode']` commented out (line 321). -/
def init_from_save (fresh : ℕ → OrchState) (d : SaveDict) (load_critic : Bool) :
    OrchState × ℤ :=
  let inst0 := fresh d.initDict
  let inst1 := {inst0 with
    initDict := d.initDict,
    agents := load_agent_params inst0.agents d.agentParams,
    pol_dev := "gpu",
    trgt_pol_dev := "gpu"}
  let inst2 :=
    if load_critic then
      {inst1 with
        critic := {inst1.critic with params := d.criticSD, phys := PhysDev.cuda},
        target_critic :=
          {inst1.target_critic with params := d.targetCriticSD, phys := PhysDev.cuda},
        criticOptimState := d.criticOptimSD,
        critic_dev := "gpu",
        trgt_critic_dev := "gpu"}
    else inst1
  (inst2, 29001 + 8200)

/-- Concrete training state used to exhibit the `logger=None` crash:
one agent, a one-parameter critic, a one-parameter policy. -/
def s7 : GradState :=
  { nAgents := 1,
    criticPs := [⟨1, 0, true, false⟩],
    polPs := [[⟨2, 0, true, false⟩]] }

/-- Concrete torch oracle (constant gradients, identity clip and steps). -/
def orc7 : TorchOracle :=
  { polLossGrad := fun _ _ => 1,
    polCriticGrad := fun _ _ => 1,
    criticLossGrad := fun _ => 1,
    clipF := fun _ gs => gs,
    polStep := fun _ ps => ps,
    criticStep := fun ps => ps }

/-- Concrete session state for the checkpoint round trip: one agent on
GPU in eval mode, with distinct parameter vectors everywhere. -/
def s6 : OrchState :=
  { agents := [⟨⟨[1, 2], Mode.eval, PhysDev.cuda⟩, ⟨[3], Mode.train, PhysDev.cuda⟩⟩],
    critic := ⟨[4, 5], Mode.train, PhysDev.cuda⟩,
    target_critic := ⟨[6], Mode.train, PhysDev.cuda⟩,
    criticOptimState := [7],
    initDict := 11,
    pol_dev := "gpu",
    critic_dev := "gpu",
    trgt_pol_dev := "gpu",
    trgt_critic_dev := "gpu" }

/-- Concrete `cls(**init_dict)` constructor: freshly initialized networks
of the matching shapes (all parameters zero). -/
def fresh6 : ℕ → OrchState := fun idict =>
  { agents := [⟨⟨[0, 0], Mode.train, PhysDev.cpu⟩, ⟨[0], Mode.train, PhysDev.cpu⟩⟩],
    critic := ⟨[0, 0], Mode.train, PhysDev.cpu⟩,
    target_critic := ⟨[0], Mode.train, PhysDev.cpu⟩,
    criticOptimState := [0],
    initDict := idict,
    pol_dev := "cpu",
    critic_dev := "cpu",
    trgt_pol_dev := "cpu",
    trgt_critic_dev := "cpu" }

theorem Dual.ext_vd : ∀ {a b : Dual}, a.v = b.v → a.d = b.d → a = b
  | ⟨_, _⟩, ⟨_, _⟩, rfl, rfl => rfl

@[simp] theorem Dual.zero_v : (0 : Dual).v = 0 := rfl
@[simp] theorem Dual.zero_d : (0 : Dual).d = 0 := rfl
@[simp] theorem Dual.add_v (a b : Dual) : (a + b).v = a.v + b.v := rfl
@[simp] theorem Dual.add_d (a b : Dual) : (a + b).d = a.d + b.d := rfl
@[simp] theorem Dual.neg_v (a : Dual) : (-a).v = -a.v := rfl
@[simp] theorem Dual.neg_d (a : Dual) : (-a).d = -a.d := rfl
@[simp] theorem Dual.sub_v (a b : Dual) : (a - b).v = a.v - b.v := rfl
@[simp] theorem Dual.sub_d (a b : Dual) : (a - b).d = a.d - b.d := rfl
@[simp] theorem Dual.mul_v (a b : Dual) : (a * b).v = a.v * b.v := rfl
@[simp] theorem Dual.mul_d (a b : Dual) : (a * b).d = a.d * b.v + a.v * b.d := rfl
@[simp] theorem Dual.ofQ_v (c : ℚ) : (Dual.ofQ c).v = c := rfl
@[simp] theorem Dual.ofQ_d (c : ℚ) : (Dual.ofQ c).d = 0 := rfl
@[simp] theorem Dual.detach_v (a : Dual) : a.detach.v = a.v := rfl
@[simp] theorem Dual.detach_d (a : Dual) : a.detach.d = 0 := rfl
@[simp] theorem Dual.divC_v (a : Dual) (c : ℚ) : (a.divC c).v = a.v / c := rfl
@[simp] theorem Dual.divC_d (a : Dual) (c : ℚ) : (a.divC c).d = a.d / c := rfl

@[simp] theorem Dual.sum_v (l : List Dual) : l.sum.v = (l.map Dual.v).sum := by
  induction l with
  | nil => rfl
  | cons a l ih => simp [ih]

@[simp] theorem Dual.sum_d (l : List Dual) : l.sum.d = (l.map Dual.d).sum := by
  induction l with
  | nil => rfl
  | cons a l ih => simp [ih]

@[simp] theorem dmean_v (l : List Dual) : (dmean l).v = qmean (l.map Dual.v) := by
  simp [dmean, qmean]

@[simp] theorem dmean_d (l : List Dual) : (dmean l).d = qmean (l.map Dual.d) := by
  simp [dmean, qmean]

/-- Generic shape of the running `loss += term` accumulations in the source. -/
theorem foldl_add_map {α M : Type _} [AddCommMonoid M] (f : α → M) :
    ∀ (l : List α) (b : M), l.foldl (fun acc x => acc + f x) b = b + (l.map f).sum := by
  intro l
  induction l with
  | nil => intro b; simp
  | cons x l ih => intro b; simp [ih, add_assoc]

theorem Dual.mul_zero' (a : Dual) : a * (0 : Dual) = 0 :=
  Dual.ext_vd (by simp) (by simp)

@[simp] theorem Dual.ofQ_zero : Dual.ofQ 0 = 0 := rfl
@[simp] theorem Dual.ofQ_add (a b : ℚ) : Dual.ofQ a + Dual.ofQ b = Dual.ofQ (a + b) :=
  Dual.ext_vd rfl (by simp)
@[simp] theorem Dual.ofQ_sub (a b : ℚ) : Dual.ofQ a - Dual.ofQ b = Dual.ofQ (a - b) :=
  Dual.ext_vd rfl (by simp)
@[simp] theorem Dual.ofQ_mul (a b : ℚ) : Dual.ofQ a * Dual.ofQ b = Dual.ofQ (a * b) :=
  Dual.ext_vd rfl (by simp)
@[simp] theorem Dual.ofQ_neg (a : ℚ) : -Dual.ofQ a = Dual.ofQ (-a) :=
  Dual.ext_vd rfl (by simp)
@[simp] theorem Dual.ofQ_divC (a c : ℚ) : (Dual.ofQ a).divC c = Dual.ofQ (a / c) :=
  Dual.ext_vd rfl (by simp)
@[simp] theorem Dual.ofQ_detach (a : ℚ) : (Dual.ofQ a).detach = Dual.ofQ a := rfl
@[simp] theorem Dual.ofQ_inj {a b : ℚ} : Dual.ofQ a = Dual.ofQ b ↔ a = b := by
  constructor
  · intro h
    exact congrArg Dual.v h
  · intro h
    rw [h]
@[simp] theorem Dual.sub_zero' (a : Dual) : a - 0 = a :=
  Dual.ext_vd (by simp) (by simp)
@[simp] theorem Dual.add_zero' (a : Dual) : a + 0 = a :=
  Dual.ext_vd (by simp) (by simp)

theorem Dual.sub_self' (a : Dual) : a - a = 0 :=
  Dual.ext_vd (by simp) (by simp)

theorem dmean_zero (l : List Dual) (h : ∀ x ∈ l, x = 0) : dmean l = 0 := by
  have hs : l.sum = 0 := List.sum_eq_zero h
  refine Dual.ext_vd ?_ ?_ <;> simp [dmean, hs]

/-- With every advantage equal to zero, the non-soft per-agent policy loss
vanishes entirely (before regularization terms are added). -/
theorem pol_loss_zero_targets (R : ℚ) (lps : List Dual) (n : ℕ) :
    pol_loss false R lps (List.replicate n 0) [] = 0 := by
  simp only [pol_loss, List.foldl_nil]
  apply dmean_zero
  intro x hx
  obtain ⟨lt, hlt, rfl⟩ := List.mem_map.1 hx
  have h2 : lt.2 = 0 := List.eq_of_mem_replicate (List.of_mem_zip hlt).2
  rw [h2]
  have hd : (-(0 : Dual)).detach = 0 := Dual.ext_vd (by simp) (by simp)
  rw [hd, Dual.mul_zero']

theorem nsmul_dual (n : ℕ) (x : Dual) : n • x = ⟨n * x.v, n * x.d⟩ := by
  induction n with
  | zero => refine Dual.ext_vd ?_ ?_ <;> simp
  | succ m ih =>
    rw [succ_nsmul, ih]
    refine Dual.ext_vd ?_ ?_ <;> push_cast <;> simp <;> ring

theorem zipWith_replicate_same {α β γ : Type _} (f : α → β → γ) (a : α) (b : β) :
    ∀ n, List.zipWith f (List.replicate n a) (List.replicate n b) =
      List.replicate n (f a b) := by
  intro n
  induction n with
  | zero => rfl
  | succ m ih => simp [List.replicate_succ, ih]

/-- A uniform action distribution over `k+1` actions against a constant
row of counterfactual values `c` yields a baseline of exactly `c`. -/
theorem uniform_row_baseline (k : ℕ) (c : ℚ) :
    (List.zipWith (fun a b => a * b) (List.replicate (k + 1) (Dual.ofQ c))
        (List.replicate (k + 1) (Dual.ofQ (1 / (k + 1))))).sum = Dual.ofQ c := by
  rw [zipWith_replicate_same, List.sum_replicate, nsmul_dual]
  have hk : ((k : ℚ) + 1) ≠ 0 := by positivity
  refine Dual.ext_vd ?_ ?_
  · simp
    field_simp
  · simp

/-- C1. In `update_critic`, for every batch and agent the regression
target satisfies `y_i = rews[i] + gamma * nextQ_i * (1 - dones[i])` minus,
exactly when `soft`, the additional `logPi_i / reward_scale`; when
`dones[i] = 1` the discounted next-value term vanishes, so the target
reduces to `rews[i]` alone (with, as just stated, `logPi_i/reward_scale`
additionally subtracted when `soft`); the critic loss is the sum over the
agents of the mean squared error between the live critic's estimate and
the detached target, and detaching makes every target's derivative
component vanish. -/
theorem C1_critic_bellman_target :
    (∀ (soft : Bool) (gamma R rew done : ℚ) (nq lp : Dual),
      (target_q soft gamma R rew done nq lp).v =
        rew + gamma * nq.v * (1 - done) - (if soft then lp.v / R else 0)) ∧
    (∀ (gamma R rew : ℚ) (nq lp : Dual),
      (target_q false gamma R rew 1 nq lp).v = rew ∧
      (target_q true gamma R rew 1 nq lp).v = rew - lp.v / R) ∧
    (∀ (soft : Bool) (gamma R : ℚ) (n_agents : ℕ) (rews dones : List (List ℚ))
       (nqs logPis pqs : List (List Dual)),
      q_loss soft gamma R n_agents rews dones nqs logPis pqs =
        ((List.range (min n_agents (min (min nqs.length logPis.length) pqs.length))).map
          fun i => MSELossD (pqs.getD i [])
            ((target_list soft gamma R (rews.getD i []) (dones.getD i [])
                (nqs.getD i []) (logPis.getD i [])).map Dual.detach)).sum) ∧
    (∀ (soft : Bool) (gamma R : ℚ) (rews dones : List ℚ) (nqs logPis : List Dual),
      ((target_list soft gamma R rews dones nqs logPis).map Dual.detach).map Dual.d =
        List.replicate (target_list soft gamma R rews dones nqs logPis).length 0) := by
  refine ⟨?_, ?_, ?_, ?_⟩
  · intro soft gamma R rew done nq lp
    cases soft <;> simp [target_q]
  · intro gamma R rew nq lp
    constructor <;> simp [target_q]
  · intro soft gamma R n_agents rews dones nqs logPis pqs
    simp only [q_loss]
    rw [foldl_add_map]
    simp
  · intro soft gamma R rews dones nqs logPis
    rw [List.map_map]
    have h : (Dual.d ∘ Dual.detach) = fun _ : Dual => (0 : ℚ) := by
      funext a; rfl
    rw [h, List.map_const']

/-- C2. In `update_policies`, the per-agent loss value is
`mean(logPi * (logPi / reward_scale - pol_target))` when `soft` and
`mean(logPi * (-pol_target))` otherwise, each plus `1e-3` times every
regularization term; and its derivative component depends on `pol_target`
only through the values (never the derivative components) of the targets —
the target factor is detached, so no gradient flows through it. -/
theorem C2_policy_loss_formula (R : ℚ) (lps ts regs : List Dual) :
    ((pol_loss true R lps ts regs).v =
      qmean ((lps.zip ts).map fun lt => lt.1.v * (lt.1.v / R - lt.2.v)) +
        (regs.map fun r => (1e-3 : ℚ) * r.v).sum) ∧
    ((pol_loss true R lps ts regs).d =
      qmean ((lps.zip ts).map fun lt => lt.1.d * (lt.1.v / R - lt.2.v)) +
        (regs.map fun r => (1e-3 : ℚ) * r.d).sum) ∧
    ((pol_loss false R lps ts regs).v =
      qmean ((lps.zip ts).map fun lt => lt.1.v * -lt.2.v) +
        (regs.map fun r => (1e-3 : ℚ) * r.v).sum) ∧
    ((pol_loss false R lps ts regs).d =
      qmean ((lps.zip ts).map fun lt => lt.1.d * -lt.2.v) +
        (regs.map fun r => (1e-3 : ℚ) * r.d).sum) := by
  refine ⟨?_, ?_, ?_, ?_⟩ <;>
    simp [pol_loss, foldl_add_map, List.map_map, Function.comp_def]

/-- C5, amended. In `update_policies` the baseline is
`v_i = Σ_a probs_i[a] * all_q_i[a]` and the advantage is
`pol_target_i = q_i - v_i` (as embedded in `v_of` / `pol_target_of`);
when `probs_i` is uniform over `k+1` actions, all entries of `all_q_i`
share one common value, and `q_i` equals that value, then
`pol_target_i = 0` on every batch row — and with `soft=False` the policy
loss excluding regularization terms is exactly `0` (with the default
`soft=True` it instead equals `mean(logPi_i^2)/reward_scale`, which the
counterexample shows is nonzero in general). -/
theorem C5_uniform_advantage_zero (k : ℕ) (R : ℚ) (cs : List ℚ) (lps : List Dual) :
    pol_target_of (cs.map Dual.ofQ)
        (cs.map fun c => List.replicate (k + 1) (Dual.ofQ c))
        (cs.map fun _ => List.replicate (k + 1) (Dual.ofQ (1 / (k + 1)))) =
      List.replicate cs.length 0 ∧
    pol_loss false R lps
        (pol_target_of (cs.map Dual.ofQ)
          (cs.map fun c => List.replicate (k + 1) (Dual.ofQ c))
          (cs.map fun _ => List.replicate (k + 1) (Dual.ofQ (1 / (k + 1))))) [] = 0 := by
  have h1 : pol_target_of (cs.map Dual.ofQ)
      (cs.map fun c => List.replicate (k + 1) (Dual.ofQ c))
      (cs.map fun _ => List.replicate (k + 1) (Dual.ofQ (1 / (k + 1)))) =
      List.replicate cs.length 0 := by
    induction cs with
    | nil => rfl
    | cons c cs ih =>
      simp only [List.map_cons, List.length_cons, pol_target_of, v_of,
        List.zipWith_cons_cons]
      rw [uniform_row_baseline, List.replicate_succ]
      congr 1
      exact Dual.sub_self' _
  refine ⟨h1, ?_⟩
  rw [h1]
  exact pol_loss_zero_targets R lps cs.length

/-- C5, counterexample. A batch of one transition with a uniform
2-action distribution, all counterfactual values equal to `3`, sampled-action
value `3`, `logPi = -1`, `reward_scale = 10`: the advantage is `0` as the
claim says, but under the default `soft=True` invocation of
`update_policies` the policy loss excluding regularization terms is
`1/10`, not `0`. -/
theorem C5_counterexample :
    pol_target_of [Dual.ofQ 3] [[Dual.ofQ 3, Dual.ofQ 3]]
        [[Dual.ofQ (1 / 2), Dual.ofQ (1 / 2)]] = [0] ∧
    (pol_loss true 10 [Dual.ofQ (-1)]
        (pol_target_of [Dual.ofQ 3] [[Dual.ofQ 3, Dual.ofQ 3]]
          [[Dual.ofQ (1 / 2), Dual.ofQ (1 / 2)]]) []).v ≠ 0 := by
  have h : pol_target_of [Dual.ofQ 3] [[Dual.ofQ 3, Dual.ofQ 3]]
      [[Dual.ofQ (1 / 2), Dual.ofQ (1 / 2)]] = [0] := by
    simp [pol_target_of, v_of]
    norm_num
  refine ⟨h, ?_⟩
  rw [h]
  simp [pol_loss, dmean, qmean]

theorem accumGrads_disabled (gf : ℕ → ℚ) (ps : Params) :
    accumGrads gf (disable_gradients ps) = disable_gradients ps := by
  induction ps generalizing gf with
  | nil => rfl
  | cons p ps ih =>
    simp [disable_gradients, accumGrads]
    exact ih fun k => gf (k + 1)

theorem enable_disable (ps : Params) :
    enable_gradients (disable_gradients ps) = enable_gradients ps := by
  simp [enable_gradients, disable_gradients, List.map_map, Function.comp_def]

theorem polIter_criticPs (orc : TorchOracle) (s : GradState) (i : ℕ) :
    ((polIter orc s i).1).criticPs = enable_gradients s.criticPs := by
  simp [polIter, accumGrads_disabled, enable_disable]

@[simp] theorem enable_gradients_map_v (ps : Params) :
    (enable_gradients ps).map Param.v = ps.map Param.v := by
  simp [enable_gradients, List.map_map, Function.comp_def]

@[simp] theorem enable_gradients_map_g (ps : Params) :
    (enable_gradients ps).map Param.g = ps.map Param.g := by
  simp [enable_gradients, List.map_map, Function.comp_def]

theorem polLoop_fold (orc : TorchOracle) :
    ∀ (l : List ℕ) (s : GradState) (tr : List Ev),
      ((l.foldl (polLoopStep orc) (s, tr)).1.criticPs.map Param.v =
        s.criticPs.map Param.v) ∧
      ((l.foldl (polLoopStep orc) (s, tr)).1.criticPs.map Param.g =
        s.criticPs.map Param.g) ∧
      ((l.foldl (polLoopStep orc) (s, tr)).2 =
        tr ++ l.flatMap fun i =>
          [Ev.disableCritic, Ev.backwardPol i, Ev.enableCritic,
           Ev.clipPol i (1 / 2), Ev.stepPol i, Ev.zeroPol i]) := by
  intro l
  induction l with
  | nil => intro s tr; simp
  | cons i l ih =>
    intro s tr
    obtain ⟨h1, h2, h3⟩ := ih (polIter orc s i).1 (tr ++ (polIter orc s i).2)
    refine ⟨?_, ?_, ?_⟩
    · rw [List.foldl_cons]
      show (((l.foldl (polLoopStep orc) (polLoopStep orc (s, tr) i))).1.criticPs.map Param.v) = _
      have hs : polLoopStep orc (s, tr) i = ((polIter orc s i).1, tr ++ (polIter orc s i).2) := rfl
      rw [hs, h1, polIter_criticPs, enable_gradients_map_v]
    · rw [List.foldl_cons]
      have hs : polLoopStep orc (s, tr) i = ((polIter orc s i).1, tr ++ (polIter orc s i).2) := rfl
      rw [hs, h2, polIter_criticPs, enable_gradients_map_g]
    · rw [List.foldl_cons]
      have hs : polLoopStep orc (s, tr) i = ((polIter orc s i).1, tr ++ (polIter orc s i).2) := rfl
      rw [hs, h3]
      simp [polIter, List.append_assoc]

/-- C3. A full `update_policies` pass leaves every critic parameter
value — and even every critic gradient buffer — numerically unchanged,
although the critic is invoked in the loss computation; its event trace
is, per agent, exactly: disable critic gradients, the single backward
call for that agent, re-enable critic gradients, clip that agent's policy
gradients, step that agent's (and only that agent's) policy optimizer,
zero that agent's gradients.  No critic-optimizer step event occurs. -/
theorem C3_policy_update_critic_frozen (orc : TorchOracle) (s : GradState) :
    ((update_policies_run orc s).1.criticPs.map Param.v = s.criticPs.map Param.v) ∧
    ((update_policies_run orc s).1.criticPs.map Param.g = s.criticPs.map Param.g) ∧
    ((update_policies_run orc s).2 = polTrace (min s.nAgents s.polPs.length)) := by
  have h := polLoop_fold orc (List.range (min s.nAgents s.polPs.length)) s []
  simpa [update_policies_run, polTrace] using h

/-- C4. In `update_critic`, after the single backward pass and before
the optimizer step the shared-parameter gradients are rescaled via the
critic's `scale_shared_grads` capability (dividing exactly the shared
parameters' gradients by `n_agents`), then global-norm clipping with
budget `10 * n_agents` is applied, then exactly one critic optimizer step
is taken, followed by zeroing the accumulated gradients — in that order. -/
theorem C4_critic_update_order (orc : TorchOracle) (s : GradState) :
    ((update_critic_run orc s).2 =
      [Ev.backwardCritic, Ev.scaleShared, Ev.clipCritic (10 * s.nAgents),
       Ev.stepCritic, Ev.zeroCritic]) ∧
    ((update_critic_run orc s).1.criticPs =
      zero_grad (orc.criticStep (clip_grad_norm orc.clipF (10 * s.nAgents)
        (scale_shared_grads s.nAgents (accumGrads orc.criticLossGrad s.criticPs))))) ∧
    (∀ (n : ℕ) (ps : Params),
      (scale_shared_grads n ps).map Param.g =
        ps.map fun p => if p.shared then p.g / n else p.g) := by
  refine ⟨rfl, rfl, ?_⟩
  intro n ps
  simp [scale_shared_grads, List.map_map, Function.comp_def, apply_ite]

/-- C7. Contrary to the claim, neither update completes when the
metrics sink is absent: with `logger=None` both `update_critic` (the
unguarded per-parameter logging loop, line 134) and `update_policies`
(the unguarded entropy log, line 163) raise an `AttributeError` on the
concrete one-agent state. -/
theorem C7_logger_none_crash :
    update_critic none orc7 s7 = Except.error attrErr ∧
    update_policies none orc7 s7 = Except.error attrErr := by
  constructor <;> rfl

/-- C8. `prep_rollouts` changes at most the live policies' mode and
device: the critic, the target critic, every target policy, the three
tracked device fields `critic_dev` / `trgt_pol_dev` / `trgt_critic_dev`,
the critic-optimizer state, and even the live policies' parameter values
are all left unchanged, for every requested device. -/
theorem C8_rollouts_frame (device : String) (s : OrchState) :
    ((prep_rollouts device s).1.critic = s.critic) ∧
    ((prep_rollouts device s).1.target_critic = s.target_critic) ∧
    ((prep_rollouts device s).1.critic_dev = s.critic_dev) ∧
    ((prep_rollouts device s).1.trgt_pol_dev = s.trgt_pol_dev) ∧
    ((prep_rollouts device s).1.trgt_critic_dev = s.trgt_critic_dev) ∧
    ((prep_rollouts device s).1.criticOptimState = s.criticOptimState) ∧
    ((prep_rollouts device s).1.agents.map AgentNets.target_policy =
      s.agents.map AgentNets.target_policy) ∧
    ((prep_rollouts device s).1.agents.map (fun a => a.policy.params) =
      s.agents.map fun a => a.policy.params) := by
  unfold prep_rollouts pol_phase
  split_ifs <;>
    simp [evalPol, movePolTo, List.map_map, Function.comp_def]

theorem Net.mode_update_self (n : Net) (m : Mode) (h : n.mode = m) :
    {n with mode := m} = n := by
  cases n
  simp_all

/-- Everything `prep_training` guarantees about its result: all four
tracked device fields equal the requested device, and every network is in
training mode. -/
theorem prep_training_post (d : String) (s : OrchState) :
    ((prep_training d s).1.pol_dev = d) ∧
    ((prep_training d s).1.critic_dev = d) ∧
    ((prep_training d s).1.trgt_pol_dev = d) ∧
    ((prep_training d s).1.trgt_critic_dev = d) ∧
    ((prep_training d s).1.agents.map (fun a => a.policy.mode) =
      List.replicate s.agents.length Mode.train) ∧
    ((prep_training d s).1.agents.map (fun a => a.target_policy.mode) =
      List.replicate s.agents.length Mode.train) ∧
    ((prep_training d s).1.critic.mode = Mode.train) ∧
    ((prep_training d s).1.target_critic.mode = Mode.train) := by
  unfold prep_training trgt_critic_phase trgt_pol_phase critic_phase pol_phase train_modes
  split_ifs <;>
    simp_all [trainAN, movePolTo, moveTrgtPolTo, List.map_map, Function.comp_def,
      List.map_const']

theorem prep_rollouts_post (d : String) (s : OrchState) :
    ((prep_rollouts d s).1.pol_dev = d) ∧
    (∀ a ∈ (prep_rollouts d s).1.agents, a.policy.mode = Mode.eval) := by
  unfold prep_rollouts pol_phase
  split_ifs <;>
    simp_all [evalPol, movePolTo, List.map_map, Function.comp_def]

theorem map_eq_self_of_mem {α : Type _} (f : α → α) (l : List α)
    (h : ∀ a ∈ l, f a = a) : l.map f = l := by
  induction l with
  | nil => rfl
  | cons a l ih =>
    rw [List.map_cons, h a (List.mem_cons_self a l), ih]
    intro b hb
    exact h b (List.mem_cons_of_mem a hb)

theorem prep_rollouts_noop (d : String) (t : OrchState)
    (h1 : t.pol_dev = d) (h2 : ∀ a ∈ t.agents, a.policy.mode = Mode.eval) :
    prep_rollouts d t = (t, []) := by
  have hagents : t.agents.map evalPol = t.agents := by
    apply map_eq_self_of_mem
    intro a ha
    have hm := h2 a ha
    cases a with
    | mk pol tp =>
      cases pol
      simp_all [evalPol]
  have hstate : ({t with agents := t.agents.map evalPol} : OrchState) = t := by
    rw [hagents]
  unfold prep_rollouts pol_phase
  rw [hstate]
  simp [h1]

theorem prep_training_noop (d : String) (t : OrchState)
    (h1 : t.pol_dev = d) (h2 : t.critic_dev = d) (h3 : t.trgt_pol_dev = d)
    (h4 : t.trgt_critic_dev = d)
    (h5 : ∀ a ∈ t.agents, a.policy.mode = Mode.train ∧ a.target_policy.mode = Mode.train)
    (h6 : t.critic.mode = Mode.train) (h7 : t.target_critic.mode = Mode.train) :
    prep_training d t = (t, []) := by
  have hagents : t.agents.map trainAN = t.agents := by
    apply map_eq_self_of_mem
    intro a ha
    obtain ⟨hp, ht⟩ := h5 a ha
    cases a with
    | mk pol tp =>
      cases pol
      cases tp
      simp_all [trainAN]
  have htm : train_modes t = t := by
    unfold train_modes
    rw [hagents, Net.mode_update_self _ _ h6, Net.mode_update_self _ _ h7]
  unfold prep_training trgt_critic_phase trgt_pol_phase critic_phase pol_phase
  rw [htm]
  simp [h1, h2, h3, h4]

theorem mode_of_mem_of_map_replicate {l : List AgentNets} {n : ℕ} {m : Mode}
    (f : AgentNets → Mode) (h : l.map f = List.replicate n m) :
    ∀ a ∈ l, f a = m := by
  intro a ha
  exact List.eq_of_mem_replicate (h ▸ List.mem_map_of_mem f ha)

/-- C9. Mode transitions are idempotent per role: after one
`prep_rollouts device` (likewise `prep_training device`), running the same
transition again performs no device transfer at all (its transfer trace is
empty) and leaves the tracked state exactly as it was after the first
call. -/
theorem C9_mode_transitions_idempotent (device : String) (s : OrchState) :
    (prep_rollouts device (prep_rollouts device s).1 =
      ((prep_rollouts device s).1, [])) ∧
    (prep_training device (prep_training device s).1 =
      ((prep_training device s).1, [])) := by
  constructor
  · obtain ⟨h1, h2⟩ := prep_rollouts_post device s
    exact prep_rollouts_noop device _ h1 h2
  · obtain ⟨h1, h2, h3, h4, h5, h6, h7, h8⟩ := prep_training_post device s
    refine prep_training_noop device _ h1 h2 h3 h4 ?_ h7 h8
    intro a ha
    exact ⟨mode_of_mem_of_map_replicate _ h5 a ha,
           mode_of_mem_of_map_replicate _ h6 a ha⟩

/-- C10. `save` mutates the live session: it first invokes
`prep_training(device='cpu')`, so after `save` returns — from any prior
state, including rollout mode — every policy, target policy, the critic
and the target critic are in training mode and all four tracked device
fields equal `'cpu'`. -/
theorem C10_save_forces_cpu_training (ep : Option ℤ) (s : OrchState) :
    ((save ep s).1.agents.map (fun a => a.policy.mode) =
      List.replicate s.agents.length Mode.train) ∧
    ((save ep s).1.agents.map (fun a => a.target_policy.mode) =
      List.replicate s.agents.length Mode.train) ∧
    ((save ep s).1.critic.mode = Mode.train) ∧
    ((save ep s).1.target_critic.mode = Mode.train) ∧
    ((save ep s).1.pol_dev = "cpu") ∧
    ((save ep s).1.critic_dev = "cpu") ∧
    ((save ep s).1.trgt_pol_dev = "cpu") ∧
    ((save ep s).1.trgt_critic_dev = "cpu") := by
  obtain ⟨h1, h2, h3, h4, h5, h6, h7, h8⟩ := prep_training_post ("cpu") s
  exact ⟨h5, h6, h7, h8, h1, h2, h3, h4⟩

/-- C6. `save` followed by `init_from_save(load_critic=True)` does
restore every policy, target-policy, critic, target-critic and
critic-optimizer parameter exactly — but it does NOT return the episode
counter that was passed to `save`: on the concrete session `s6` saved
with `episode = 5`, the loader returns the hardcoded `29001 + 8200 =
37201` (attention_sac.py line 322, with the correct read commented out at
line 321). -/
theorem C6_roundtrip_hardcoded_episode :
    ((init_from_save fresh6 (save (some 5) s6).2 true).2 = 37201) ∧
    ((init_from_save fresh6 (save (some 5) s6).2 true).2 ≠ 5) ∧
    ((init_from_save fresh6 (save (some 5) s6).2 true).1.agents.map
        (fun a => a.policy.params) = s6.agents.map fun a => a.policy.params) ∧
    ((init_from_save fresh6 (save (some 5) s6).2 true).1.agents.map
        (fun a => a.target_policy.params) =
      s6.agents.map fun a => a.target_policy.params) ∧
    ((init_from_save fresh6 (save (some 5) s6).2 true).1.critic.params =
      s6.critic.params) ∧
    ((init_from_save fresh6 (save (some 5) s6).2 true).1.target_critic.params =
      s6.target_critic.params) ∧
    ((init_from_save fresh6 (save (some 5) s6).2 true).1.criticOptimState =
      s6.criticOptimState) := by
  refine ⟨by decide, by decide, rfl, rfl, rfl, rfl, rfl⟩

end RMAC
